import Mathlib

/- Verification of the LLM client of jfding/sutra-trans-playground.

   The development shallowly embeds the Python sources `src/llm_client.py`,
   `src/main.py` and `src/app.py`.  Python dictionaries become ordered
   association lists (insertion order preserved, as in CPython), JSON values
   become the inductive `JVal`, Python strings stay Lean `String`s with the
   relevant `str` methods re-implemented over the character list, and code
   that can raise becomes `Except String`-valued.  HTTP transport is out of
   scope: stream consumers take the list of body lines as input, and the
   JSON decoder (`json.loads`) is an abstract parameter `parse`. -/

namespace SutraTrans

/-- JSON-like Python values as produced by `json.loads`: CPython distinguishes
    int and float, so the embedding does too (floats as rationals, used only
    as opaque payload values). -/
inductive JVal where
  | jnull
  | jbool (b : Bool)
  | jint (n : Int)
  | jfloat (q : ℚ)
  | jstr (s : String)
  | jarr (xs : List JVal)
  | jobj (kvs : List (String × JVal))

/-- A Python dict with string keys, in insertion order. -/
abbrev JObj := List (String × JVal)

/-- Python `d.get(k)`: the value of the first binding of `k`, if any. -/
def dget (kvs : JObj) (k : String) : Option JVal :=
  (kvs.find? (fun p => p.1 == k)).map (fun p => p.2)

/-- Python `d.get(k, default)`. -/
def dgetD (kvs : JObj) (k : String) (d : JVal) : JVal :=
  (dget kvs k).getD d

/-- Python `k in d` for a dict. -/
def hasKey (kvs : JObj) (k : String) : Bool :=
  (dget kvs k).isSome

/-- Python dict assignment `d[k] = v`: replaces the first binding of `k`
    in place, or appends a new binding at the end. -/
def dset : JObj → String → JVal → JObj
  | [], k, v => [(k, v)]
  | q :: rest, k, v => if q.1 == k then (k, v) :: rest else q :: dset rest k v

/-- Python truthiness `bool(x)` on JSON values. -/
def pyTruthy : JVal → Bool
  | .jnull => false
  | .jbool b => b
  | .jint n => n != 0
  | .jfloat q => q != 0
  | .jstr s => s != ""
  | .jarr xs => !xs.isEmpty
  | .jobj kvs => !kvs.isEmpty

/-- Python `str(x)` as used inside f-strings.  The float, list and dict
    branches stand in for CPython repr formatting, which no theorem below
    relies on; the branches actually reached by the source are None, bool,
    int and str. -/
def pyStr : JVal → String
  | .jnull => "None"
  | .jbool true => "True"
  | .jbool false => "False"
  | .jint n => toString n
  | .jfloat _ => "<float-repr>"
  | .jstr s => s
  | .jarr _ => "<list-repr>"
  | .jobj _ => "<dict-repr>"

/-- Python `s.strip()` (whitespace at both ends). -/
def pyStrip (s : String) : String :=
  ⟨((s.data.dropWhile Char.isWhitespace).reverse.dropWhile Char.isWhitespace).reverse⟩

/-- Python `s.lower()` (ASCII case folding suffices for the URLs involved). -/
def pyLower (s : String) : String :=
  ⟨s.data.map Char.toLower⟩

/-- Python `s.startswith(t)`. -/
def pyStartsWith (s t : String) : Bool :=
  t.data.isPrefixOf s.data

/-- Python slicing `s[:n]`. -/
def pySlice (s : String) (n : Nat) : String :=
  ⟨s.data.take n⟩

/-- Python slicing `s[n:]`. -/
def pyDropChars (s : String) (n : Nat) : String :=
  ⟨s.data.drop n⟩

/-- Substring test over character lists, for Python `needle in haystack`. -/
def hasSubChars : List Char → List Char → Bool
  | needle, [] => needle.isEmpty
  | needle, c :: rest => needle.isPrefixOf (c :: rest) || hasSubChars needle rest

/-- Python `needle in haystack` on strings. -/
def pyContainsSub (needle hay : String) : Bool :=
  hasSubChars needle.data hay.data

/-- Decimal digit run evaluated to a number; `none` if a non-digit occurs. -/
def decDigits? (cs : List Char) : Option Nat :=
  cs.foldl
    (fun acc c =>
      match acc with
      | none => none
      | some n => if c.isDigit then some (n * 10 + (c.toNat - 48)) else none)
    (some 0)

/-- Python `int(s)` on a string: strips whitespace, optional sign, then a
    nonempty digit run; `none` models the `ValueError` CPython raises
    otherwise. -/
def pyIntOfStr (s : String) : Option Int :=
  match (pyStrip s).data with
  | [] => none
  | '-' :: rest => if rest.isEmpty then none else (decDigits? rest).map (fun n => -(n : Int))
  | '+' :: rest => if rest.isEmpty then none else (decDigits? rest).map (fun n => (n : Int))
  | cs => (decDigits? cs).map (fun n => (n : Int))

/-- Python `int(x)` on a JSON value: `none` models the `ValueError` or
    `TypeError` CPython raises for unconvertible values.  Float conversion
    truncates toward zero. -/
def pyIntCoerce : JVal → Option Int
  | .jint n => some n
  | .jbool b => some (if b then 1 else 0)
  | .jfloat q => some (Int.tdiv q.num (q.den : Int))
  | .jstr s => pyIntOfStr s
  | _ => none

/-! The client state after `LLMClient.__init__` (llm_client.py lines 19-76).
    The API key lookup and validation are environment I/O and are out of
    scope; the fields kept are the ones the payload builders and response
    interpreters read. -/

/-- State of a constructed `LLMClient` (llm_client.py lines 42-76).
    `metaso_params` and `openai_params` are the config dicts stored on
    lines 75-76 (`None` becomes the empty dict). -/
structure LLMClient where
  api_url : String
  model : Option String
  metaso_params : JObj
  openai_params : JObj

/-- API-type auto-detection from the URL (llm_client.py lines 45-49):
    `metaso` iff the lowercased URL contains `metaso`, else `openai`. -/
def api_type_of_url (api_url : String) : String :=
  if pyContainsSub "metaso" (pyLower api_url) then "metaso" else "openai"

/-- The `self.api_type` field set by `__init__` (llm_client.py lines 45-49). -/
def LLMClient.api_type (c : LLMClient) : String :=
  api_type_of_url c.api_url

/-- The CLI's own dispatch flag (main.py line 224):
    `is_search_api = q_key is not None`. -/
def is_search_api (q_key : Option String) : Bool :=
  q_key.isSome

/-- The key mapping of `_get_metaso_config_payload`
    (llm_client.py lines 102-109). -/
def key_mapping : List (String × String) :=
  [("lang", "lang"), ("session_id", "sessionId"),
   ("third_party_uid", "thirdPartyUid"), ("enable_mix", "enableMix"),
   ("enable_image", "enableImage"), ("engine_type", "engineType")]

/-- The method `_get_metaso_config_payload` (llm_client.py lines 91-116):
    copies each mapped config key whose value is not `None` into a payload
    fragment under its camelCase name. -/
def LLMClient.get_metaso_config_payload (c : LLMClient) : JObj :=
  key_mapping.foldl
    (fun acc p =>
      match dget c.metaso_params p.1 with
      | some .jnull => acc
      | some v => dset acc p.2 v
      | none => acc)
    []

/-- Merge loop shared by `search` (llm_client.py lines 281-285) and
    `stream_search` (lines 372-376): config entries are added only for keys
    not already in the payload. -/
def merge_config (cfg : JObj) (p : JObj) : JObj :=
  cfg.foldl (fun acc kv => if hasKey acc kv.1 then acc else dset acc kv.1 kv.2) p

/-- Conditional payload assignment `if arg: payload[k] = arg` for an
    optional string argument (truthy means present and non-empty). -/
def setIfStr (p : JObj) (k : String) : Option String → JObj
  | some s => if s != "" then dset p k (.jstr s) else p
  | none => p

/-- Conditional payload assignment `if arg: payload[k] = arg` for an
    optional int argument (truthy means present and nonzero). -/
def setIfInt (p : JObj) (k : String) : Option Int → JObj
  | some n => if n != 0 then dset p k (.jint n) else p
  | none => p

/-- Conditional payload assignment `if arg: payload[k] = arg` for a boolean
    flag argument. -/
def setIfFlag (p : JObj) (k : String) (b : Bool) : JObj :=
  if b then dset p k (.jbool b) else p

/-- Conditional payload assignment `if arg is not None: payload[k] = arg`
    for an optional string argument. -/
def setIfSomeStr (p : JObj) (k : String) : Option String → JObj
  | some s => dset p k (.jstr s)
  | none => p

/-- Conditional payload assignment `if arg is not None: payload[k] = arg`
    for an optional float argument. -/
def setIfSomeFloat (p : JObj) (k : String) : Option ℚ → JObj
  | some t => dset p k (.jfloat t)
  | none => p

/-- Payload of `search` before the config merge (llm_client.py lines
    263-279): question truncated to 2000 characters, then each truthy
    argument, `stream: False` in source order. -/
def search_payload_args (question : String) (lang : Option String)
    (session_id : Option Int) (third_party_uid : Option String)
    (enable_mix enable_image : Bool) (engine_type : Option String) : JObj :=
  let p0 : JObj := [("question", .jstr (pySlice question 2000))]
  let p1 := setIfStr p0 "lang" lang
  let p2 := setIfInt p1 "sessionId" session_id
  let p3 := setIfStr p2 "thirdPartyUid" third_party_uid
  let p4 := dset p3 "stream" (.jbool false)
  let p5 := setIfFlag p4 "enableMix" enable_mix
  let p6 := setIfFlag p5 "enableImage" enable_image
  setIfSomeStr p6 "engineType" engine_type

/-- Full payload of the buffered `search` call (llm_client.py lines
    263-285): the argument payload with the config fragment merged in for
    keys not already set. -/
def LLMClient.search_payload (c : LLMClient) (question : String)
    (lang : Option String) (session_id : Option Int)
    (third_party_uid : Option String) (enable_mix enable_image : Bool)
    (engine_type : Option String) : JObj :=
  merge_config c.get_metaso_config_payload
    (search_payload_args question lang session_id third_party_uid
      enable_mix enable_image engine_type)

/-- Payload of `stream_search` before the config merge (llm_client.py lines
    354-370): question truncated to 2000 characters, `stream: True`, then
    each truthy argument. -/
def stream_search_payload_args (question : String) (lang : Option String)
    (session_id : Option Int) (third_party_uid : Option String)
    (enable_mix enable_image : Bool) (engine_type : Option String) : JObj :=
  let p0 : JObj := [("question", .jstr (pySlice question 2000)),
                    ("stream", .jbool true)]
  let p1 := setIfStr p0 "lang" lang
  let p2 := setIfInt p1 "sessionId" session_id
  let p3 := setIfStr p2 "thirdPartyUid" third_party_uid
  let p4 := setIfFlag p3 "enableMix" enable_mix
  let p5 := setIfFlag p4 "enableImage" enable_image
  setIfSomeStr p5 "engineType" engine_type

/-- Full payload of the streaming `stream_search` call (llm_client.py lines
    354-376). -/
def LLMClient.stream_search_payload (c : LLMClient) (question : String)
    (lang : Option String) (session_id : Option Int)
    (third_party_uid : Option String) (enable_mix enable_image : Bool)
    (engine_type : Option String) : JObj :=
  merge_config c.get_metaso_config_payload
    (stream_search_payload_args question lang session_id third_party_uid
      enable_mix enable_image engine_type)

/-- A chat message dict as built on llm_client.py lines 452-455. -/
def chat_message (role content : String) : JVal :=
  .jobj [("role", .jstr role), ("content", .jstr content)]

/-- Payload of `stream_completion` (llm_client.py lines 452-467): messages
    with an optional leading system message, `model`, `stream: True`,
    `temperature` only when not `None`, `max_tokens` only when truthy.
    `self.openai_params` is never read here, exactly as in the source. -/
def LLMClient.stream_completion_payload (c : LLMClient) (prompt : String)
    (system_prompt : Option String) (temperature : Option ℚ)
    (max_tokens : Option Int) : JObj :=
  let messages :=
    (match system_prompt with
     | some s => if s != "" then [chat_message "system" s] else []
     | none => []) ++ [chat_message "user" prompt]
  let p0 : JObj :=
    [("model", match c.model with | some m => .jstr m | none => .jnull),
     ("messages", .jarr messages),
     ("stream", .jbool true)]
  let p1 := setIfSomeFloat p0 "temperature" temperature
  setIfInt p1 "max_tokens" max_tokens

/-- Coercion of the configured `max_tokens` in the CLI (main.py lines
    271-276): absent or `None` stays `None`; otherwise `int(...)`, with a
    coercion failure silently mapped back to `None`. -/
def cli_coerce_max_tokens : Option JVal → Option Int
  | none => none
  | some .jnull => none
  | some v => pyIntCoerce v

/-! Interpreters for the two response families.  Dynamic Python failures
    (AttributeError, TypeError, ...) become `Except.error`; the exact
    message text is not meaningful, only that an exception is raised. -/

/-- Python `k in x` for a JSON value: key test on dicts, membership on
    lists (string `==` never matches a non-string element), substring test
    on strings, `TypeError` otherwise. -/
def pyIn (k : String) : JVal → Except String Bool
  | .jobj kvs => .ok (hasKey kvs k)
  | .jarr xs => .ok (xs.any (fun v => match v with | .jstr s => s == k | _ => false))
  | .jstr s => .ok (pyContainsSub k s)
  | _ => .error "TypeError: argument not iterable"

/-- Python `x[k]` with a string subscript: dict lookup (`KeyError` when
    absent), `TypeError` on anything else. -/
def pySubscriptStr (v : JVal) (k : String) : Except String JVal :=
  match v with
  | .jobj kvs =>
    match dget kvs k with
    | some x => .ok x
    | none => .error "KeyError"
  | _ => .error "TypeError: subscript"

/-- Python `len(x)`. -/
def pyLen : JVal → Except String Nat
  | .jstr s => .ok s.length
  | .jarr xs => .ok xs.length
  | .jobj kvs => .ok kvs.length
  | _ => .error "TypeError: no len"

/-- Python `x[0]`: first element of a list, first character of a string,
    `KeyError` on a string-keyed dict, `TypeError` otherwise. -/
def pyIndex0 : JVal → Except String JVal
  | .jarr (x :: _) => .ok x
  | .jarr [] => .error "IndexError"
  | .jstr s =>
    match s.data with
    | c :: _ => .ok (.jstr ⟨[c]⟩)
    | [] => .error "IndexError"
  | .jobj _ => .error "KeyError"
  | _ => .error "TypeError: not subscriptable"

/-- Python `x.get(k, default)`: only dicts have `.get`
    (`AttributeError` otherwise). -/
def pyGetD (v : JVal) (k : String) (d : JVal) : Except String JVal :=
  match v with
  | .jobj kvs => .ok (dgetD kvs k d)
  | _ => .error "AttributeError: no attribute get"

/-- One successfully parsed line of the `stream_completion` loop
    (llm_client.py lines 498-507): `ok (some s)` means the chunk `s` is
    yielded, `ok none` means no yield, `error` is an uncaught exception.
    A truthy non-string content value would make the later `"".join` raise,
    modelled as an error here. -/
def chat_line_chunk (v : JVal) : Except String (Option String) := do
  let hasChoices ← pyIn "choices" v
  let cond1 ←
    if hasChoices then do
      let choices ← pySubscriptStr v "choices"
      let n ← pyLen choices
      pure (decide (0 < n))
    else
      pure false
  if cond1 then do
    let choices ← pySubscriptStr v "choices"
    let c0 ← pyIndex0 choices
    let delta ← pyGetD c0 "delta" (.jobj [])
    let content ← pyGetD delta "content" (.jstr "")
    if pyTruthy content then
      match content with
      | .jstr s => pure (some s)
      | _ => .error "TypeError: join of non-string"
    else
      pure none
  else do
    let hasContent ← pyIn "content" v
    if hasContent then do
      let cv ← pySubscriptStr v "content"
      match cv with
      | .jstr s => pure (some s)
      | _ => .error "TypeError: join of non-string"
    else
      pure none

/-- The line loop of `stream_completion` (llm_client.py lines 486-509)
    driven over the body lines: blank lines are skipped, a `data: ` marker
    is removed, a stripped `[DONE]` stops consumption, `json.loads` failures
    (`parse _ = none`) are silently skipped.  Returns the yielded chunks and
    an uncaught exception if one occurs. -/
def stream_completion_lines (parse : String → Option JVal) :
    List String → List String × Option String
  | [] => ([], none)
  | line :: rest =>
    if pyStrip line == "" then stream_completion_lines parse rest
    else
      let l2 := if pyStartsWith line "data: " then pyDropChars line 6 else line
      if pyStrip l2 == "[DONE]" then ([], none)
      else
        match parse l2 with
        | none => stream_completion_lines parse rest
        | some v =>
          match chat_line_chunk v with
          | .ok none => stream_completion_lines parse rest
          | .ok (some s) =>
            let r := stream_completion_lines parse rest
            (s :: r.1, r.2)
          | .error e => ([], some e)

/-- The openai branch of `get_full_response` (llm_client.py lines 620-627):
    the joined chunks of `stream_completion`, or the exception it raised. -/
def get_full_response_openai (parse : String → Option JVal)
    (lines : List String) : Except String String :=
  match stream_completion_lines parse lines with
  | (out, none) => .ok (String.join out)
  | (_, some e) => .error e

/-- The heartbeat filter of `stream_search` (llm_client.py line 417):
    `data.get("type") == "heartbeat"`; `.get` on a non-dict raises. -/
def heartbeat_check : JVal → Except String Bool
  | .jobj kvs =>
    .ok (match dget kvs "type" with
         | some (.jstr t) => t == "heartbeat"
         | _ => false)
  | _ => .error "AttributeError: no attribute get"

/-- The line loop of `stream_search` (llm_client.py lines 402-428): same
    framing as the chat loop, but parsed events are yielded as dicts,
    heartbeats are dropped, and a parse failure whose stripped line starts
    with `ERROR:` is re-wrapped as an error event (lines 420-428).  Returns
    the yielded events and an uncaught exception if one occurs. -/
def stream_search_lines (parse : String → Option JVal) :
    List String → List JVal × Option String
  | [] => ([], none)
  | line :: rest =>
    if pyStrip line == "" then stream_search_lines parse rest
    else
      let l2 := if pyStartsWith line "data: " then pyDropChars line 6 else line
      if pyStrip l2 == "[DONE]" then ([], none)
      else
        match parse l2 with
        | some v =>
          match heartbeat_check v with
          | .error e => ([], some e)
          | .ok true => stream_search_lines parse rest
          | .ok false =>
            let r := stream_search_lines parse rest
            (v :: r.1, r.2)
        | none =>
          if pyStartsWith (pyStrip l2) "ERROR:" then
            let r := stream_search_lines parse rest
            ((.jobj [("type", .jstr "error"), ("msg", .jstr (pyStrip l2)),
                     ("code", .jnull)]) :: r.1, r.2)
          else
            stream_search_lines parse rest

/-- The reference line formatting shared by both metaso paths of
    `get_full_response` (llm_client.py lines 565-569 and 612-616):
    `f"  [index] title\n    link\n"` with `.get` defaults `""`;
    a non-dict reference raises `AttributeError`. -/
def format_ref (r : JVal) : Except String String :=
  match r with
  | .jobj kvs =>
    .ok ("  [" ++ pyStr (dgetD kvs "index" (.jstr "")) ++ "] "
         ++ pyStr (dgetD kvs "title" (.jstr "")) ++ "\n    "
         ++ pyStr (dgetD kvs "link" (.jstr "")) ++ "\n")
  | _ => .error "AttributeError: no attribute get"

/-- Python `", ".join(xs)` over a JSON value, as used for the keyword list
    (llm_client.py line 557): joins a list of strings, or the characters of
    a string; any other iterand raises. -/
def pyJoinComma : JVal → Except String String
  | .jarr xs =>
    xs.foldl
      (fun acc v =>
        match acc, v with
        | .ok a, .jstr s => .ok (if a == "" then s else a ++ ", " ++ s)
        | .ok _, _ => .error "TypeError: join of non-string"
        | .error e, _ => .error e)
      (.ok "")
  | .jstr s =>
    .ok (String.intercalate ", " (s.data.map (fun c => ⟨[c]⟩)))
  | _ => .error "TypeError: not iterable"

/-- One event of the streaming-search accumulation loop of
    `get_full_response` (llm_client.py lines 550-579), transforming the
    accumulated `full_text`.  An `error` event raises
    `RuntimeError(f"Metaso API error (code code): msg")`. -/
def get_full_response_step (full_text : String) (message : JVal) :
    Except String String :=
  match message with
  | .jobj kvs =>
    match dget kvs "type" with
    | some (.jstr t) =>
      if t == "query" then
        let keywords := dgetD kvs "data" (.jarr [])
        if pyTruthy keywords then do
          let j ← pyJoinComma keywords
          pure (full_text ++ "Keywords: " ++ j ++ "\n\n")
        else
          pure full_text
      else if t == "set-reference" then
        let ref_list := dgetD kvs "list" (.jarr [])
        if pyTruthy ref_list then
          match ref_list with
          | .jarr refs => do
            let blocks ← refs.mapM format_ref
            pure (full_text ++ "References:\n" ++ String.join blocks ++ "\n")
          | _ => .error "TypeError: not iterable"
        else
          pure full_text
      else if t == "append-text" then
        match dgetD kvs "text" (.jstr "") with
        | .jstr s => pure (full_text ++ s)
        | _ => .error "TypeError: concatenation of non-string"
      else if t == "error" then
        .error ("Metaso API error (code "
                ++ pyStr ((dget kvs "code").getD .jnull) ++ "): "
                ++ pyStr (dgetD kvs "msg" (.jstr "Unknown error")))
      else
        pure full_text
    | _ => pure full_text
  | _ => .error "AttributeError: no attribute get"

/-- The whole streaming-search accumulation (llm_client.py lines 536-581):
    fold of `get_full_response_step` from the empty `full_text`. -/
def accumulate_search_messages (messages : List JVal) : Except String String :=
  messages.foldlM get_full_response_step ""

/-- The metaso streaming branch of `get_full_response` (llm_client.py
    lines 534-581) over the body lines: the events yielded by
    `stream_search` are accumulated; an exception raised while producing
    the remaining events surfaces after the yielded ones are consumed. -/
def get_full_response_metaso_streaming (parse : String → Option JVal)
    (lines : List String) : Except String String :=
  let r := stream_search_lines parse lines
  match accumulate_search_messages r.1 with
  | .error e => .error e
  | .ok t =>
    match r.2 with
    | some e => .error e
    | none => .ok t

/-- Python `x == 0` on a JSON value (`True` for int 0, float 0.0 and
    `False`, since bool is an int subtype). -/
def pyEqIntZero : JVal → Bool
  | .jint n => n == 0
  | .jfloat q => q == 0
  | .jbool b => !b
  | _ => false

/-- The metaso non-streaming branch of `get_full_response` (llm_client.py
    lines 583-619) applied to the decoded response body: a missing or
    nonzero `errCode` raises `RuntimeError(f"Metaso API error: errMsg")`;
    otherwise the `data.text` is returned with the formatted reference
    block appended when references are present.  (The `save_raw_json`
    early return of lines 599-602 is kept; a non-string `data.text` value
    would make the later concatenation or the declared return type fail and
    is modelled as an error.) -/
def get_full_response_metaso_buffered (result : JVal) (save_raw_json : Bool) :
    Except String String :=
  match result with
  | .jobj kvs =>
    if (match dget kvs "errCode" with
        | some v => pyEqIntZero v
        | none => false) then
      if save_raw_json then
        .ok "Raw JSON saved to metaso_response.json"
      else
        match dgetD kvs "data" (.jobj []) with
        | .jobj dk =>
          match dgetD dk "text" (.jstr "") with
          | .jstr ts =>
            let references := dgetD dk "references" (.jarr [])
            if pyTruthy references then
              match references with
              | .jarr refs => do
                let blocks ← refs.mapM format_ref
                pure (ts ++ "References:\n" ++ String.join blocks ++ "\n")
              | _ => .error "TypeError: not iterable"
            else
              .ok ts
          | _ => .error "TypeError: non-string text"
        | _ => .error "AttributeError: no attribute get"
    else
      .error ("Metaso API error: "
              ++ pyStr (dgetD kvs "errMsg" (.jstr "Unknown error")))
  | _ => .error "AttributeError: no attribute get"

/-! Python keyword binding at the two `LLMClient(...)` construction sites
    (main.py lines 213-220 and app.py lines 208-215). -/

/-- Keyword parameter names declared by `LLMClient.__init__`
    (llm_client.py lines 19-27). -/
def llm_client_init_params : List String :=
  ["api_url", "model", "api_key_name", "verbose", "metaso_params",
   "openai_params"]

/-- Keyword argument names passed by `main` when constructing the client
    (main.py lines 213-220). -/
def main_init_call_kwargs : List String :=
  ["api_url", "model", "api_key_name", "verbose", "extra_params", "q_key"]

/-- Keyword argument names passed by the `/api/chat` handler when
    constructing the client (app.py lines 208-215). -/
def app_init_call_kwargs : List String :=
  ["api_url", "model", "api_key_name", "verbose", "extra_params", "q_key"]

/-- Python call binding: passing a keyword the callee does not declare
    raises `TypeError` before the callee body runs. -/
def bind_call_kwargs (declared passed : List String) : Except String Unit :=
  match passed.find? (fun k => !(declared.contains k)) with
  | some k => .error ("TypeError: __init__ got an unexpected keyword argument " ++ k)
  | none => .ok ()

/-- A Python call with keyword arguments: binding happens first; only when
    every keyword is accepted does the body run and produce a value. -/
def py_call_with_kwargs {α : Type} (declared passed : List String)
    (body : Unit → α) : Except String α :=
  match bind_call_kwargs declared passed with
  | .error e => .error e
  | .ok _ => .ok (body ())

/-- The client construction attempted by the CLI (main.py lines 213-220):
    were binding to succeed, `metaso_params` and `openai_params` would stay
    at their `None` defaults (empty dicts). -/
def main_client_construction (api_url : String) (model : Option String) :
    Except String LLMClient :=
  py_call_with_kwargs llm_client_init_params main_init_call_kwargs
    (fun _ => ⟨api_url, model, [], []⟩)

/-- The client construction attempted by the web chat endpoint
    (app.py lines 208-215). -/
def app_client_construction (api_url : String) (model : Option String) :
    Except String LLMClient :=
  py_call_with_kwargs llm_client_init_params app_init_call_kwargs
    (fun _ => ⟨api_url, model, [], []⟩)

/-! Lemmas about the dict model. -/

theorem dget_cons (q : String × JVal) (rest : JObj) (k : String) :
    dget (q :: rest) k = if q.1 == k then some q.2 else dget rest k := by
  by_cases h : q.1 == k <;> simp [dget, List.find?_cons, h]

theorem dget_dset_self (p : JObj) (k : String) (v : JVal) :
    dget (dset p k v) k = some v := by
  induction p with
  | nil => simp [dget, dset, List.find?_cons]
  | cons q rest ih =>
    by_cases h : q.1 == k
    · simp [dset, h, dget, List.find?_cons]
    · simp only [dset, h, if_false, Bool.false_eq_true, ite_false, dget_cons]
      simpa [h] using ih

theorem dget_dset_ne (p : JObj) (k k' : String) (v : JVal)
    (h : (k' == k) = false) : dget (dset p k' v) k = dget p k := by
  induction p with
  | nil => simp [dget, dset, List.find?_cons, h]
  | cons q rest ih =>
    by_cases hq : q.1 == k'
    · have hqk : (q.1 == k) = false := by
        have : q.1 = k' := by simpa using hq
        simpa [this] using h
      simp [dset, hq, dget_cons, h, hqk]
    · simp [dset, hq, dget_cons, ih]

theorem hasKey_dset (p : JObj) (k k' : String) (v : JVal) :
    hasKey (dset p k' v) k = (k' == k || hasKey p k) := by
  by_cases h : k' == k
  · have : k' = k := by simpa using h
    subst this
    simp [hasKey, dget_dset_self, h]
  · simp only [Bool.not_eq_true] at h
    simp [hasKey, dget_dset_ne p k k' v h, h]

theorem merge_config_present (cfg : JObj) (p : JObj) (k : String)
    (h : hasKey p k = true) : dget (merge_config cfg p) k = dget p k := by
  induction cfg generalizing p with
  | nil => simp [merge_config]
  | cons kv rest ih =>
    show dget (merge_config rest
      (if hasKey p kv.1 then p else dset p kv.1 kv.2)) k = dget p k
    by_cases hk : hasKey p kv.1
    · simp only [hk, if_true]
      exact ih p h
    · simp only [hk, if_false, Bool.false_eq_true, ite_false]
      have hne : (kv.1 == k) = false := by
        by_contra hcon
        simp only [Bool.not_eq_false, beq_iff_eq] at hcon
        rw [hcon] at hk
        exact hk h
      rw [ih (dset p kv.1 kv.2) (by simp [hasKey_dset, h])]
      exact dget_dset_ne p k kv.1 kv.2 hne

theorem merge_config_absent (cfg : JObj) (p : JObj) (k : String)
    (h : hasKey p k = false) : dget (merge_config cfg p) k = dget cfg k := by
  induction cfg generalizing p with
  | nil =>
    have h' : dget p k = none := by
      cases hd : dget p k
      · rfl
      · rw [hasKey, hd] at h; simp at h
    show dget p k = dget [] k
    rw [h']
    rfl
  | cons kv rest ih =>
    show dget (merge_config rest
      (if hasKey p kv.1 then p else dset p kv.1 kv.2)) k
      = dget (kv :: rest) k
    by_cases hkv : kv.1 == k
    · have hkv' : kv.1 = k := by simpa using hkv
      have hpk : hasKey p kv.1 = false := by rw [hkv']; exact h
      simp only [hpk, if_false, Bool.false_eq_true, ite_false]
      rw [merge_config_present rest (dset p kv.1 kv.2) k
        (by simp [hasKey_dset, hkv])]
      rw [hkv', dget_dset_self, dget_cons]
      simp [hkv]
    · have step : hasKey (if hasKey p kv.1 then p else dset p kv.1 kv.2) k
          = false := by
        by_cases hk : hasKey p kv.1 <;>
          simp [hk, hasKey_dset, h, hkv]
      rw [ih _ step, dget_cons]
      simp [hkv]

theorem dget_setIfStr_ne (p : JObj) (k k' : String) (o : Option String)
    (h : (k' == k) = false) : dget (setIfStr p k' o) k = dget p k := by
  cases o with
  | none => rfl
  | some s =>
    by_cases hs : s != "" <;> simp [setIfStr, hs, dget_dset_ne p k k' _ h]

theorem dget_setIfInt_ne (p : JObj) (k k' : String) (o : Option Int)
    (h : (k' == k) = false) : dget (setIfInt p k' o) k = dget p k := by
  cases o with
  | none => rfl
  | some n =>
    by_cases hn : n != 0 <;> simp [setIfInt, hn, dget_dset_ne p k k' _ h]

theorem dget_setIfFlag_ne (p : JObj) (k k' : String) (b : Bool)
    (h : (k' == k) = false) : dget (setIfFlag p k' b) k = dget p k := by
  cases b <;> simp [setIfFlag, dget_dset_ne p k k' _ h]

theorem dget_setIfSomeStr_ne (p : JObj) (k k' : String) (o : Option String)
    (h : (k' == k) = false) : dget (setIfSomeStr p k' o) k = dget p k := by
  cases o <;> simp [setIfSomeStr, dget_dset_ne p k k' _ h]

theorem dget_setIfSomeFloat_ne (p : JObj) (k k' : String) (o : Option ℚ)
    (h : (k' == k) = false) : dget (setIfSomeFloat p k' o) k = dget p k := by
  cases o <;> simp [setIfSomeFloat, dget_dset_ne p k k' _ h]

theorem search_args_question (q : String) (lang : Option String)
    (sid : Option Int) (uid : Option String) (mix img : Bool)
    (et : Option String) :
    dget (search_payload_args q lang sid uid mix img et) "question"
      = some (.jstr (pySlice q 2000)) := by
  unfold search_payload_args
  rw [dget_setIfSomeStr_ne _ "question" "engineType" _ rfl,
    dget_setIfFlag_ne _ "question" "enableImage" _ rfl,
    dget_setIfFlag_ne _ "question" "enableMix" _ rfl,
    dget_dset_ne _ "question" "stream" _ rfl,
    dget_setIfStr_ne _ "question" "thirdPartyUid" _ rfl,
    dget_setIfInt_ne _ "question" "sessionId" _ rfl,
    dget_setIfStr_ne _ "question" "lang" _ rfl]
  rfl

theorem search_args_hasKey_question (q : String) (lang : Option String)
    (sid : Option Int) (uid : Option String) (mix img : Bool)
    (et : Option String) :
    hasKey (search_payload_args q lang sid uid mix img et) "question" = true := by
  simp [hasKey, search_args_question]

theorem stream_search_args_question (q : String) (lang : Option String)
    (sid : Option Int) (uid : Option String) (mix img : Bool)
    (et : Option String) :
    dget (stream_search_payload_args q lang sid uid mix img et) "question"
      = some (.jstr (pySlice q 2000)) := by
  unfold stream_search_payload_args
  rw [dget_setIfSomeStr_ne _ "question" "engineType" _ rfl,
    dget_setIfFlag_ne _ "question" "enableImage" _ rfl,
    dget_setIfFlag_ne _ "question" "enableMix" _ rfl,
    dget_setIfStr_ne _ "question" "thirdPartyUid" _ rfl,
    dget_setIfInt_ne _ "question" "sessionId" _ rfl,
    dget_setIfStr_ne _ "question" "lang" _ rfl]
  rfl

theorem stream_search_args_hasKey_question (q : String) (lang : Option String)
    (sid : Option Int) (uid : Option String) (mix img : Bool)
    (et : Option String) :
    hasKey (stream_search_payload_args q lang sid uid mix img et) "question"
      = true := by
  simp [hasKey, stream_search_args_question]

/-- C9: the CLI (main.py lines 213-220) and the web chat endpoint (app.py
    lines 208-215) both construct `LLMClient` with keyword arguments
    `extra_params` and `q_key`, names `__init__` (llm_client.py lines
    19-27) does not declare, so every such construction raises `TypeError`
    during call binding: no client value exists, hence no payload is built
    and no request is sent. -/
theorem C9_undeclared_kwargs_construction_fails :
    llm_client_init_params.contains "extra_params" = false
    ∧ llm_client_init_params.contains "q_key" = false
    ∧ main_init_call_kwargs.contains "extra_params" = true
    ∧ main_init_call_kwargs.contains "q_key" = true
    ∧ app_init_call_kwargs.contains "extra_params" = true
    ∧ app_init_call_kwargs.contains "q_key" = true
    ∧ (∀ (api_url : String) (model : Option String),
        main_client_construction api_url model
          = .error
            "TypeError: __init__ got an unexpected keyword argument extra_params")
    ∧ (∀ (api_url : String) (model : Option String),
        app_client_construction api_url model
          = .error
            "TypeError: __init__ got an unexpected keyword argument extra_params") :=
  ⟨rfl, rfl, rfl, rfl, rfl, rfl, fun _ _ => rfl, fun _ _ => rfl⟩

/-- C10: a buffered search response body with no `errCode` key at all makes
    `get_full_response` raise the provider error (llm_client.py lines
    594-597: `result.get("errCode") != 0` is true for the absent key), no
    matter what else the body carries, in particular a well-formed
    `data.text`. -/
theorem C10_missing_errCode_raises (kvs : JObj) (save_raw_json : Bool)
    (h : dget kvs "errCode" = none) :
    get_full_response_metaso_buffered (.jobj kvs) save_raw_json
      = .error ("Metaso API error: "
          ++ pyStr (dgetD kvs "errMsg" (.jstr "Unknown error"))) := by
  simp [get_full_response_metaso_buffered, h]

/-- Witness for C10: a body carrying only a well-formed `data.text` (no
    `errCode`) is rejected with the provider error. -/
theorem C10_missing_errCode_raises_witness :
    get_full_response_metaso_buffered
      (.jobj [("data", .jobj [("text", .jstr "well-formed answer")])]) false
      = .error "Metaso API error: Unknown error" :=
  C10_missing_errCode_raises
    [("data", .jobj [("text", .jstr "well-formed answer")])] false rfl

/-- C1 counterexample: the claim says the family that selects payload shape
    and interpretation is `search` exactly when `q_key` is set.  For the
    concrete configuration with `q_key = "question"` and
    `api_url = "https://example.com/api/answer"`, the CLI flag
    `is_search_api` is true, yet the family the client actually dispatches
    on (`self.api_type`, llm_client.py lines 45-49) is the chat one. -/
theorem C1_family_from_qkey_counterexample :
    is_search_api (some "question") = true
    ∧ (LLMClient.api_type ⟨"https://example.com/api/answer", none, [], []⟩)
        = "openai"
    ∧ "openai" ≠ "metaso" := by
  refine ⟨rfl, by decide, by decide⟩

/-- C1 amended: the provider family the client dispatches on is derived from
    the endpoint URL alone — `metaso` (search) exactly when the lowercased
    URL contains `metaso`, `openai` (chat) otherwise — independent of
    `q_key`; the presence of `q_key` only drives the CLI's own flag
    `is_search_api` (main.py line 224). -/
theorem C1_family_from_url :
    (∀ c : LLMClient, c.api_type = api_type_of_url c.api_url)
    ∧ (∀ url : String,
        (api_type_of_url url = "metaso"
          ↔ pyContainsSub "metaso" (pyLower url) = true)
        ∧ (api_type_of_url url = "openai"
          ↔ pyContainsSub "metaso" (pyLower url) = false))
    ∧ (∀ q_key : Option String, is_search_api q_key = q_key.isSome) := by
  refine ⟨fun _ => rfl, fun url => ?_, fun _ => rfl⟩
  by_cases h : pyContainsSub "metaso" (pyLower url) <;>
    constructor <;> simp [api_type_of_url, h]

/-- C7: search-family question truncation and chat-family absence of
    truncation.  The transmitted `question` field of both search payloads is
    exactly the first 2000 characters of the prompt (llm_client.py lines
    263-265 and 354-357); a prompt of at most 2000 characters passes
    unchanged, a longer one is cut to exactly 2000 characters; the chat
    payload's user message carries the prompt without any truncation
    (llm_client.py line 455). -/
theorem C7_search_truncation_chat_untouched :
    (∀ (c : LLMClient) (q : String) (lang : Option String) (sid : Option Int)
       (uid : Option String) (mix img : Bool) (et : Option String),
       dget (c.search_payload q lang sid uid mix img et) "question"
         = some (.jstr (pySlice q 2000)))
    ∧ (∀ (c : LLMClient) (q : String) (lang : Option String) (sid : Option Int)
       (uid : Option String) (mix img : Bool) (et : Option String),
       dget (c.stream_search_payload q lang sid uid mix img et) "question"
         = some (.jstr (pySlice q 2000)))
    ∧ (∀ q : String, q.length ≤ 2000 → pySlice q 2000 = q)
    ∧ (∀ q : String, 2000 ≤ q.length → (pySlice q 2000).length = 2000)
    ∧ (∀ (c : LLMClient) (prompt : String) (sys : Option String)
       (temp : Option ℚ) (mt : Option Int),
       dget (c.stream_completion_payload prompt sys temp mt) "messages"
         = some (.jarr ((match sys with
             | some s => if s != "" then [chat_message "system" s] else []
             | none => []) ++ [chat_message "user" prompt]))) := by
  refine ⟨?_, ?_, ?_, ?_, ?_⟩
  · intro c q lang sid uid mix img et
    unfold LLMClient.search_payload
    rw [merge_config_present _ _ _ (search_args_hasKey_question q lang sid uid mix img et)]
    exact search_args_question q lang sid uid mix img et
  · intro c q lang sid uid mix img et
    unfold LLMClient.stream_search_payload
    rw [merge_config_present _ _ _
      (stream_search_args_hasKey_question q lang sid uid mix img et)]
    exact stream_search_args_question q lang sid uid mix img et
  · intro q h
    cases q with
    | mk data =>
      simp only [String.length] at h
      simp only [pySlice]
      exact congrArg String.mk (List.take_of_length_le h)
  · intro q h
    cases q with
    | mk data =>
      simp only [String.length] at h ⊢
      simp only [pySlice]
      exact List.length_take_of_le h
  · intro c prompt sys temp mt
    unfold LLMClient.stream_completion_payload
    rw [dget_setIfInt_ne _ "messages" "max_tokens" _ rfl,
      dget_setIfSomeFloat_ne _ "messages" "temperature" _ rfl]
    rfl

/-- Witness for C7: a short prompt passes unchanged; a 2500-character prompt
    is cut to exactly 2000 characters. -/
theorem C7_search_truncation_chat_untouched_witness :
    pySlice "short question" 2000 = "short question"
    ∧ (pySlice ⟨List.replicate 2500 'a'⟩ 2000).length = 2000 := by
  constructor
  · exact C7_search_truncation_chat_untouched.2.2.1 "short question" (by decide)
  · have hlen : (⟨List.replicate 2500 'a'⟩ : String).length = 2500 := by
      show (List.replicate 2500 'a').length = 2500
      rw [List.length_replicate]
    exact C7_search_truncation_chat_untouched.2.2.2.1 ⟨List.replicate 2500 'a'⟩
      (by rw [hlen]; norm_num)

/-- C6: in the `stream_search` line loop, a line that fails to parse as
    JSON is discarded without terminating the stream — the remaining lines
    are still processed — except that a line whose stripped text starts
    with `ERROR:` is yielded as an error-typed event in its place
    (llm_client.py lines 414-428).  `l2` is the line after the optional
    `data: ` framing removal. -/
theorem C6_unparseable_line_skipped_or_error (parse : String → Option JVal)
    (line l2 : String) (rest : List String)
    (hl2 : l2 = (if pyStartsWith line "data: " then pyDropChars line 6 else line))
    (hblank : (pyStrip line == "") = false)
    (hdone : (pyStrip l2 == "[DONE]") = false)
    (hfail : parse l2 = none) :
    stream_search_lines parse (line :: rest)
      = (if pyStartsWith (pyStrip l2) "ERROR:" then
          ((.jobj [("type", .jstr "error"), ("msg", .jstr (pyStrip l2)),
                   ("code", .jnull)]) :: (stream_search_lines parse rest).1,
           (stream_search_lines parse rest).2)
        else stream_search_lines parse rest) := by
  rw [stream_search_lines]
  rw [← hl2]
  simp only [hblank, Bool.false_eq_true, if_false, hdone, hfail]

/-- Witness for C6: with a decoder that rejects every line, the line
    `not json at all` is skipped and processing continues; the later line
    `ERROR: boom` is re-wrapped as an error event. -/
theorem C6_unparseable_line_skipped_or_error_witness :
    stream_search_lines (fun _ => none) ["not json at all", "ERROR: boom"]
      = ([.jobj [("type", .jstr "error"), ("msg", .jstr "ERROR: boom"),
                 ("code", .jnull)]], none) := by
  have h1 := C6_unparseable_line_skipped_or_error (fun _ => none)
    "not json at all" "not json at all" ["ERROR: boom"] rfl rfl rfl rfl
  have h2 := C6_unparseable_line_skipped_or_error (fun _ => none)
    "ERROR: boom" "ERROR: boom" [] rfl rfl rfl rfl
  rw [h1]
  show stream_search_lines (fun _ => none) ["ERROR: boom"] = _
  rw [h2]
  rfl

theorem foldlM_append_except {α β : Type} (f : β → α → Except String β)
    (l1 l2 : List α) (b : β) :
    (l1 ++ l2).foldlM f b
      = (l1.foldlM f b) >>= (fun b2 => l2.foldlM f b2) := by
  induction l1 generalizing b with
  | nil => simp
  | cons a l ih =>
    show (f b a >>= fun b2 => (l ++ l2).foldlM f b2)
      = ((f b a >>= fun b2 => l.foldlM f b2) >>= fun b2 => l2.foldlM f b2)
    cases f b a with
    | error e => rfl
    | ok b1 =>
      show (l ++ l2).foldlM f b1 = (l.foldlM f b1 >>= fun b2 => l2.foldlM f b2)
      exact ih b1

/-- C5: during the streamed-search accumulation of `get_full_response`
    (llm_client.py lines 576-579), an error event with code `c` and message
    `m` makes the whole accumulation fail with the RuntimeError carrying
    both, and any text accumulated from the earlier events is discarded:
    the result is the raised error, not a text. -/
theorem C5_error_event_discards_partial_text (before after : List JVal)
    (c : Int) (m : String) (t : String)
    (h : accumulate_search_messages before = .ok t) :
    accumulate_search_messages
      (before ++ (.jobj [("type", .jstr "error"), ("code", .jint c),
                         ("msg", .jstr m)]) :: after)
      = .error ("Metaso API error (code " ++ toString c ++ "): " ++ m) := by
  unfold accumulate_search_messages at h ⊢
  rw [foldlM_append_except, h]
  rfl

/-- Witness for C5: a stream that first appends the text `partial` and then
    carries the spec's error event (code 7, message `bad`) fails with the
    error carrying both, discarding `partial`. -/
theorem C5_error_event_discards_partial_text_witness :
    accumulate_search_messages
      [.jobj [("type", .jstr "append-text"), ("text", .jstr "partial")],
       .jobj [("type", .jstr "error"), ("code", .jint 7), ("msg", .jstr "bad")]]
      = .error "Metaso API error (code 7): bad" := by
  have h := C5_error_event_discards_partial_text
    [.jobj [("type", .jstr "append-text"), ("text", .jstr "partial")]] []
    7 "bad" "partial" rfl
  exact h

theorem str_append_assoc (a b c : String) : a ++ b ++ c = a ++ (b ++ c) := by
  cases a; cases b; cases c
  show String.mk _ = String.mk _
  simp [String.append]

theorem str_empty_append (a : String) : "" ++ a = a := by
  cases a; rfl

/-- A reference entry dict `(index, title, link)` as delivered in a
    `set-reference` event. -/
def mk_reference (i : Int) (title link : String) : JVal :=
  .jobj [("index", .jint i), ("title", .jstr title), ("link", .jstr link)]

/-- A `set-reference` stream event carrying the given reference list. -/
def set_reference_event (refs : List JVal) : JVal :=
  .jobj [("type", .jstr "set-reference"), ("list", .jarr refs)]

/-- The line the source formats for one reference
    (llm_client.py line 569). -/
def format_ref_line (i : Int) (title link : String) : String :=
  "  [" ++ toString i ++ "] " ++ title ++ "\n    " ++ link ++ "\n"

/-- The whole block the source appends for one `set-reference` event with a
    nonempty list (llm_client.py lines 564-570). -/
def reference_block (rs : List (Int × String × String)) : String :=
  "References:\n"
  ++ String.join (rs.map (fun r => format_ref_line r.1 r.2.1 r.2.2)) ++ "\n"

theorem format_ref_mk (i : Int) (title link : String) :
    format_ref (mk_reference i title link)
      = .ok (format_ref_line i title link) := rfl

theorem mapM_format_ref (rs : List (Int × String × String)) :
    (rs.map (fun r => mk_reference r.1 r.2.1 r.2.2)).mapM format_ref
      = .ok (rs.map (fun r => format_ref_line r.1 r.2.1 r.2.2)) := by
  induction rs with
  | nil => rfl
  | cons r rest ih =>
    simp only [List.map_cons, List.mapM_cons, format_ref_mk, ih]
    rfl

theorem step_set_reference (acc : String) (rs : List (Int × String × String)) :
    get_full_response_step acc
      (set_reference_event (rs.map (fun r => mk_reference r.1 r.2.1 r.2.2)))
      = .ok (if rs.isEmpty then acc else acc ++ reference_block rs) := by
  cases rs with
  | nil => rfl
  | cons r rest =>
    have hstep : get_full_response_step acc
        (set_reference_event
          ((r :: rest).map (fun r => mk_reference r.1 r.2.1 r.2.2)))
        = (((r :: rest).map (fun r => mk_reference r.1 r.2.1 r.2.2)).mapM
            format_ref
          >>= fun blocks =>
            pure (acc ++ "References:\n" ++ String.join blocks ++ "\n")) := rfl
    rw [hstep, mapM_format_ref]
    show Except.ok (acc ++ "References:\n"
        ++ String.join ((r :: rest).map (fun r => format_ref_line r.1 r.2.1 r.2.2))
        ++ "\n") = _
    rw [if_neg (by simp)]
    simp [reference_block, str_append_assoc]

/-- C3 counterexample: a streamed search with two `set-reference` events.
    The claim says the latest event's list replaces any prior reference list
    in the returned text; the code (llm_client.py lines 559-570) instead
    appends a second formatted block, so the first block is still present in
    the result, which is therefore not the latest-only block. -/
theorem C3_reference_replacement_counterexample :
    accumulate_search_messages
      [set_reference_event [mk_reference 1 "A" "http://a"],
       set_reference_event [mk_reference 2 "B" "http://b"]]
      = .ok ("References:\n  [1] A\n    http://a\n\n"
             ++ "References:\n  [2] B\n    http://b\n\n")
    ∧ ("References:\n  [1] A\n    http://a\n\n"
       ++ "References:\n  [2] B\n    http://b\n\n")
      ≠ "References:\n  [2] B\n    http://b\n\n" := by
  constructor
  · rfl
  · decide

/-- C3 amended: each `set-reference` event whose list is nonempty appends —
    at its point of arrival — the block `References:` followed by one
    `  [index] title` line and an indented link line per reference, in
    arrival order; a later `set-reference` event appends a further block
    rather than replacing the earlier one in the returned text (only the
    dead local variable `references` is overwritten,
    llm_client.py line 562). -/
theorem C3_set_reference_blocks_append :
    (∀ (acc : String) (rs : List (Int × String × String)),
      get_full_response_step acc
        (set_reference_event (rs.map (fun r => mk_reference r.1 r.2.1 r.2.2)))
        = .ok (if rs.isEmpty then acc else acc ++ reference_block rs))
    ∧ (∀ rs1 rs2 : List (Int × String × String),
      accumulate_search_messages
        [set_reference_event (rs1.map (fun r => mk_reference r.1 r.2.1 r.2.2)),
         set_reference_event (rs2.map (fun r => mk_reference r.1 r.2.1 r.2.2))]
        = .ok ((if rs1.isEmpty then "" else reference_block rs1)
               ++ (if rs2.isEmpty then "" else reference_block rs2))) := by
  refine ⟨step_set_reference, fun rs1 rs2 => ?_⟩
  show (get_full_response_step ""
      (set_reference_event (rs1.map (fun r => mk_reference r.1 r.2.1 r.2.2)))
    >>= fun t1 =>
      (get_full_response_step t1
        (set_reference_event (rs2.map (fun r => mk_reference r.1 r.2.1 r.2.2)))
      >>= fun t2 => pure t2)) = _
  rw [step_set_reference]
  cases h1 : rs1.isEmpty
  · show (get_full_response_step ("" ++ reference_block rs1)
        (set_reference_event (rs2.map (fun r => mk_reference r.1 r.2.1 r.2.2)))
      >>= fun t2 => pure t2) = _
    rw [step_set_reference]
    cases h2 : rs2.isEmpty
    · show Except.ok ("" ++ reference_block rs1 ++ reference_block rs2) = _
      simp [str_empty_append, String.append_empty]
    · show Except.ok ("" ++ reference_block rs1) = _
      simp [str_empty_append, String.append_empty]
  · show (get_full_response_step ""
        (set_reference_event (rs2.map (fun r => mk_reference r.1 r.2.1 r.2.2)))
      >>= fun t2 => pure t2) = _
    rw [step_set_reference]
    cases h2 : rs2.isEmpty
    · show Except.ok ("" ++ reference_block rs2) = _
      simp [str_empty_append, String.append_empty]
    · simp [str_empty_append, String.append_empty]

/-! Claim C2 compares the code's chat-family extraction with the spec's
    description of a buffered chat contract, so the latter is rendered as
    its own definition. -/

mutual

/-- A JSON serialization of a value, standing in for the serialized dump
    the spec's fallback mentions (float formatting is schematic; no theorem
    depends on it). -/
def jdump : JVal → String
  | .jnull => "null"
  | .jbool true => "true"
  | .jbool false => "false"
  | .jint n => toString n
  | .jfloat q => toString q.num ++ "/" ++ toString q.den
  | .jstr s => "\"" ++ s ++ "\""
  | .jarr xs => "[" ++ jdumpList xs ++ "]"
  | .jobj kvs => "\x7b" ++ jdumpObj kvs ++ "\x7d"

def jdumpList : List JVal → String
  | [] => ""
  | [x] => jdump x
  | x :: y :: rest => jdump x ++ ", " ++ jdumpList (y :: rest)

def jdumpObj : List (String × JVal) → String
  | [] => ""
  | [(k, v)] => "\"" ++ k ++ "\": " ++ jdump v
  | (k, v) :: q :: rest => "\"" ++ k ++ "\": " ++ jdump v ++ ", " ++ jdumpObj (q :: rest)

end

/-- Modelled from the spec: the §4.3 contract for buffered `chat` responses
    — extract `choices[0].message.content`; if absent fall back to a
    top-level `content` field, and then to a serialized dump of the whole
    response.  This definition follows the spec's words, for comparison
    with the code's behavior; no code in `src/` implements it. -/
def spec_chat_buffered_extract (v : JVal) : String :=
  let fallback :=
    match v with
    | .jobj kvs =>
      (match dget kvs "content" with
       | some (.jstr s) => s
       | _ => jdump v)
    | _ => jdump v
  match v with
  | .jobj kvs =>
    (match dget kvs "choices" with
     | some (.jarr (.jobj c0 :: _)) =>
       (match dget c0 "message" with
        | some (.jobj msg) =>
          (match dget msg "content" with
           | some (.jstr s) => s
           | _ => fallback)
        | _ => fallback)
     | _ => fallback)
  | _ => fallback

/-- The OpenAI-style response the spec's buffered chat contract documents. -/
def chat_buffered_resp : JVal :=
  .jobj [("choices", .jarr [.jobj [("message",
    .jobj [("content", .jstr "hi")])]])]

/-- C2 counterexample: on a response event of the very shape the claim
    documents — `choices[0].message.content` present — the spec's contract
    extracts `hi`, but the code's chat path of `get_full_response`
    (llm_client.py line 627, which joins `stream_completion`, lines
    497-509) only looks at `choices[0].delta.content` and a top-level
    `content`, so it returns the empty string instead. -/
theorem C2_message_content_counterexample :
    spec_chat_buffered_extract chat_buffered_resp = "hi"
    ∧ get_full_response_openai (fun _ => some chat_buffered_resp) ["resp-line"]
      = .ok ""
    ∧ (Except.ok "" : Except String String) ≠ .ok "hi" := by
  refine ⟨rfl, rfl, by simp⟩

/-- C2 amended: the chat-family `get_full_response` joins the chunks of
    `stream_completion`.  For a parsed line carrying the documented shapes:
    with `choices` a nonempty array whose head has `delta.content`, that
    string is the chunk (empty means no chunk); with no `choices` key and a
    top-level string `content`, that string is the chunk; a line that fails
    to parse as JSON contributes nothing and does not stop the stream, and
    a `(chunks, no-exception)` run joins to a normal result — there is no
    `message.content` extraction and no serialized-dump fallback. -/
theorem C2_chat_chunks_characterization :
    (∀ (s : String) (tail : List JVal),
      chat_line_chunk (.jobj [("choices",
          .jarr (.jobj [("delta", .jobj [("content", .jstr s)])] :: tail))])
        = .ok (if s == "" then none else some s))
    ∧ (∀ s : String,
      chat_line_chunk (.jobj [("content", .jstr s)]) = .ok (some s))
    ∧ (∀ (parse : String → Option JVal) (line l2 : String) (rest : List String),
      l2 = (if pyStartsWith line "data: " then pyDropChars line 6 else line) →
      (pyStrip line == "") = false →
      (pyStrip l2 == "[DONE]") = false →
      parse l2 = none →
      stream_completion_lines parse (line :: rest)
        = stream_completion_lines parse rest)
    ∧ (∀ (parse : String → Option JVal) (lines : List String)
        (out : List String),
      stream_completion_lines parse lines = (out, none) →
      get_full_response_openai parse lines = .ok (String.join out)) := by
  refine ⟨fun s tail => ?_, fun s => rfl, fun parse line l2 rest hl2 hblank hdone hfail => ?_, fun parse lines out h => ?_⟩
  · cases hcase : s == ""
    · simp [chat_line_chunk, Bind.bind, Except.bind, Pure.pure, Except.pure,
        pyIn, hasKey, dget, pySubscriptStr, pyLen, pyIndex0, pyGetD, dgetD,
        pyTruthy, hcase]
      intro heq
      subst heq
      simp at hcase
    · have hseq : s = "" := by simpa using hcase
      subst hseq
      simp [chat_line_chunk, Bind.bind, Except.bind, Pure.pure, Except.pure,
        pyIn, hasKey, dget, pySubscriptStr, pyLen, pyIndex0, pyGetD, dgetD,
        pyTruthy]
  · rw [stream_completion_lines]
    rw [← hl2]
    simp only [hblank, Bool.false_eq_true, if_false, hdone, hfail]
  · unfold get_full_response_openai
    rw [h]

/-- Witness for C2 amended: a rejected line is skipped, and an empty run
    joins to the empty result. -/
theorem C2_chat_chunks_characterization_witness :
    stream_completion_lines (fun _ => none) ["not json", "good"]
      = stream_completion_lines (fun _ => none) ["good"]
    ∧ get_full_response_openai (fun _ => none) [] = .ok "" := by
  constructor
  · exact C2_chat_chunks_characterization.2.2.1 (fun _ => none)
      "not json" "not json" ["good"] rfl rfl rfl rfl
  · exact C2_chat_chunks_characterization.2.2.2 (fun _ => none) [] [] rfl

/-- A concrete chat client whose configured extraParams carry a
    temperature, for claim C4. -/
def openai_client_with_extra_temp : LLMClient :=
  ⟨"https://api.openai.com/v1/chat/completions", some "gpt-3.5-turbo", [],
   [("temperature", .jfloat (3/10))]⟩

/-- C4 counterexample: the chat payload builder (llm_client.py lines
    452-467) never reads `self.openai_params`, so an extraParams key that is
    not set from the call's arguments — here `temperature: 0.3` with no
    call-site temperature — is absent from the transmitted payload, while
    the claim requires it to be merged in. -/
theorem C4_extra_params_merge_counterexample :
    dget openai_client_with_extra_temp.openai_params "temperature"
      = some (.jfloat (3/10))
    ∧ dget (openai_client_with_extra_temp.stream_completion_payload
        "hello" none none none) "temperature" = none := ⟨rfl, rfl⟩

/-- C4 amended: in the search family the config fragment is merged only for
    keys not already set, with the call site winning every tie (a key
    present in the payload keeps its value, an absent key receives the
    config value); in the chat family extraParams are never merged at all —
    the payload is independent of `openai_params` — so call-site values
    trivially prevail there. -/
theorem C4_call_site_wins_search_chat_never_merges :
    (∀ (cfg p : JObj) (k : String), hasKey p k = true →
      dget (merge_config cfg p) k = dget p k)
    ∧ (∀ (cfg p : JObj) (k : String), hasKey p k = false →
      dget (merge_config cfg p) k = dget cfg k)
    ∧ (∀ (c : LLMClient) (q : String) (lang : Option String)
        (sid : Option Int) (uid : Option String) (mix img : Bool)
        (et : Option String),
      c.search_payload q lang sid uid mix img et
        = merge_config c.get_metaso_config_payload
            (search_payload_args q lang sid uid mix img et))
    ∧ (∀ (url : String) (model : Option String) (mp op1 op2 : JObj)
        (prompt : String) (sys : Option String) (temp : Option ℚ)
        (mt : Option Int),
      LLMClient.stream_completion_payload ⟨url, model, mp, op1⟩
          prompt sys temp mt
        = LLMClient.stream_completion_payload ⟨url, model, mp, op2⟩
            prompt sys temp mt) :=
  ⟨merge_config_present, merge_config_absent,
   fun _ _ _ _ _ _ _ _ => rfl, fun _ _ _ _ _ _ _ _ _ => rfl⟩

/-- Witness for C4 amended: with config `lang: en`, a call-site `lang: zh`
    survives the merge, and without a call-site value the config value is
    merged in. -/
theorem C4_call_site_wins_search_chat_never_merges_witness :
    dget (merge_config [("lang", .jstr "en")]
      [("question", .jstr "q"), ("lang", .jstr "zh")]) "lang"
      = some (.jstr "zh")
    ∧ dget (merge_config [("lang", .jstr "en")]
      [("question", .jstr "q")]) "lang" = some (.jstr "en") := by
  constructor
  · exact (C4_call_site_wins_search_chat_never_merges.1
      [("lang", .jstr "en")] [("question", .jstr "q"), ("lang", .jstr "zh")]
      "lang" rfl).trans rfl
  · exact (C4_call_site_wins_search_chat_never_merges.2.1
      [("lang", .jstr "en")] [("question", .jstr "q")] "lang" rfl).trans rfl

theorem max_tokens_field (c : LLMClient) (prompt : String)
    (sys : Option String) (temp : Option ℚ) (mt : Option Int) :
    dget (c.stream_completion_payload prompt sys temp mt) "max_tokens"
      = (match mt with
         | some n => if n != 0 then some (.jint n) else none
         | none => none) := by
  unfold LLMClient.stream_completion_payload
  rcases mt with _ | n
  · show dget (setIfSomeFloat _ "temperature" temp) "max_tokens" = none
    rw [dget_setIfSomeFloat_ne _ "max_tokens" "temperature" _ rfl]
    rfl
  · cases h : (n != 0 : Bool)
    · show dget (setIfInt _ "max_tokens" (some n)) "max_tokens" = _
      simp only [setIfInt, h, Bool.false_eq_true, if_false]
      rw [dget_setIfSomeFloat_ne _ "max_tokens" "temperature" _ rfl]
      rfl
    · show dget (setIfInt _ "max_tokens" (some n)) "max_tokens" = _
      simp only [setIfInt, h, if_true]
      exact dget_dset_self _ _ _

/-- The chat client used for claim C8's concrete evaluation. -/
def plain_openai_client : LLMClient :=
  ⟨"https://api.openai.com/v1/chat/completions", some "gpt-3.5-turbo", [], []⟩

/-- C8 counterexample: `stream_completion` guards `max_tokens` with Python
    truthiness (`if max_tokens:`, llm_client.py lines 466-467), not
    positivity, so the non-positive value `-5` is transmitted in the
    payload, while the claim requires it to be dropped. -/
theorem C8_negative_max_tokens_counterexample :
    dget (plain_openai_client.stream_completion_payload
      "p" none none (some (-5))) "max_tokens" = some (.jint (-5)) := rfl

/-- C8 amended: the chat payload carries `max_tokens` exactly when the
    value is present and nonzero after coercion — zero and values `int()`
    cannot convert are silently dropped and nothing raises (the CLI
    coercion of main.py lines 271-276 maps failures to `None`), but
    negative integers are truthy and are transmitted. -/
theorem C8_max_tokens_truthiness :
    (∀ (c : LLMClient) (prompt : String) (sys : Option String)
        (temp : Option ℚ) (mt : Option Int),
      dget (c.stream_completion_payload prompt sys temp mt) "max_tokens"
        = (match mt with
           | some n => if n != 0 then some (.jint n) else none
           | none => none))
    ∧ (∀ (c : LLMClient) (prompt : String) (sys : Option String)
        (temp : Option ℚ) (cfgv : Option JVal),
      dget (c.stream_completion_payload prompt sys temp
          (cli_coerce_max_tokens cfgv)) "max_tokens"
        = (match cli_coerce_max_tokens cfgv with
           | some n => if n != 0 then some (.jint n) else none
           | none => none)) :=
  ⟨max_tokens_field,
   fun c prompt sys temp cfgv =>
     max_tokens_field c prompt sys temp (cli_coerce_max_tokens cfgv)⟩

end SutraTrans
